import Mathlib

/-!
Shallow embedding of `src/attendance-system.py`: a Gradio front end over a
SQLite store with five tables (teachers, subjects, students, attendance,
timetables).  The store is modelled as lists of rows (insertion order) together
with one auto-increment counter per table, mirroring SQLite integer primary
keys.  Each domain operation of the source becomes a pure function from a store
(plus its form inputs) to a store and a result; the `date` column's
`utcnow` default becomes an explicit `now` parameter.
-/

namespace AttendanceSystem

/-- Row of the `teachers` table (`TeacherDB`): id, name,
`available_sessions` with default 9. -/
structure TeacherRow where
  id : Nat
  name : String
  available_sessions : Nat
  deriving DecidableEq, Repr

/-- Row of the `subjects` table (`SubjectDB`). -/
structure SubjectRow where
  id : Nat
  name : String
  teacher_id : Int
  deriving DecidableEq, Repr

/-- Row of the `students` table (`StudentDB`); the source column `section`
is a Lean keyword, rendered here as `sect`. -/
structure StudentRow where
  id : Nat
  name : String
  grade : String
  sect : String
  deriving DecidableEq, Repr

/-- Row of the `attendance` table (`AttendanceDB`); `date` is the creation
timestamp (`datetime.datetime.utcnow` default), modelled as a `Nat`. -/
structure AttendanceRow where
  id : Nat
  student_id : Int
  subject_id : Int
  date : Nat
  status : Bool
  deriving DecidableEq, Repr

/-- Row of the `timetables` table (`TimetableDB`). -/
structure TimetableRow where
  id : Nat
  class_name : String
  period : Nat
  subject_id : Int
  teacher_id : Int
  deriving DecidableEq, Repr

/-- The whole database: the five tables in insertion order, plus the
auto-increment counter of each table's integer primary key. -/
structure Store where
  teachers : List TeacherRow
  subjects : List SubjectRow
  students : List StudentRow
  attendance : List AttendanceRow
  timetables : List TimetableRow
  nextTeacherId : Nat
  nextSubjectId : Nat
  nextStudentId : Nat
  nextAttendanceId : Nat
  nextTimetableId : Nat
  deriving DecidableEq, Repr

/-- A fresh database, as produced by `Base.metadata.create_all`
(SQLite assigns 1 as the first rowid). -/
def emptyStore : Store :=
  { teachers := [], subjects := [], students := [], attendance := [],
    timetables := [], nextTeacherId := 1, nextSubjectId := 1,
    nextStudentId := 1, nextAttendanceId := 1, nextTimetableId := 1 }

/-- `create_teacher(name)`: inserts a `TeacherDB(name=name)` row
(`available_sessions` takes its column default 9) and returns the new id. -/
def create_teacher (s : Store) (name : String) : Store × Nat :=
  ({ s with teachers := s.teachers ++ [⟨s.nextTeacherId, name, 9⟩],
            nextTeacherId := s.nextTeacherId + 1 },
   s.nextTeacherId)

/-- `create_subject(name, teacher_id)`: inserts a
`SubjectDB(name=name, teacher_id=teacher_id)` row and returns the new id.
No check that `teacher_id` references an existing teacher is performed. -/
def create_subject (s : Store) (name : String) (teacher_id : Int) :
    Store × Nat :=
  ({ s with subjects := s.subjects ++ [⟨s.nextSubjectId, name, teacher_id⟩],
            nextSubjectId := s.nextSubjectId + 1 },
   s.nextSubjectId)

/-- `create_student(name, grade, section)`: inserts a `StudentDB` row and
returns the new id. -/
def create_student (s : Store) (name grade sect : String) : Store × Nat :=
  ({ s with students := s.students ++ [⟨s.nextStudentId, name, grade, sect⟩],
            nextStudentId := s.nextStudentId + 1 },
   s.nextStudentId)

/-- The pairing comprehension of `create_timetable`:
`[(m[i], m[i+1]) for i in range(0, len(m), 2)]`.  For odd-length input the
access `m[i+1]` at the last index is out of bounds (`IndexError` in the
source), so no list of pairs is produced: `none`. -/
def pairUp : List Int → Option (List (Int × Int))
  | [] => some []
  | [_] => none
  | a :: b :: rest => (pairUp rest).map (fun l => (a, b) :: l)

/-- The loop body of `create_timetable`: `enumerate(mapping, start=1)` builds
one `TimetableDB` row per pair, with `period` counting up from 1 and the
rowids assigned consecutively from `base` at commit. -/
def timetableRows (base : Nat) (class_name : String) (period : Nat) :
    List (Int × Int) → List TimetableRow
  | [] => []
  | (subject_id, teacher_id) :: rest =>
      ⟨base, class_name, period, subject_id, teacher_id⟩ ::
        timetableRows (base + 1) class_name (period + 1) rest

/-- `create_timetable(class_name, *subject_teacher_mapping)`: groups the flat
argument tuple into consecutive pairs, then adds one timetable row per pair
with 1-based `period`.  When the flat input has odd length the comprehension
raises before any `db.add`, so no store is produced (`none`). -/
def create_timetable (s : Store) (class_name : String) (flat : List Int) :
    Option Store :=
  (pairUp flat).map (fun pairs =>
    { s with
        timetables :=
          s.timetables ++ timetableRows s.nextTimetableId class_name 1 pairs,
        nextTimetableId := s.nextTimetableId + pairs.length })

/-- `take_attendance(student_id, subject_id, status)` of the teacher portal:
inserts one `AttendanceDB` row (the `date` column defaulting to the current
time `now`) and returns the new id. -/
def take_attendance (s : Store) (student_id subject_id : Int) (status : Bool)
    (now : Nat) : Store × Nat :=
  ({ s with
       attendance :=
         s.attendance ++ [⟨s.nextAttendanceId, student_id, subject_id, now,
                           status⟩],
       nextAttendanceId := s.nextAttendanceId + 1 },
   s.nextAttendanceId)

/-- `generate_report(subject_id)`: all attendance rows whose `subject_id`
matches, in insertion order, projected to (student_id, date, status). -/
def generate_report (s : Store) (subject_id : Int) :
    List (Int × Nat × Bool) :=
  (s.attendance.filter (fun a => a.subject_id == subject_id)).map
    (fun a => (a.student_id, a.date, a.status))

/-- The student lookup of `check_schedule`:
`db.query(StudentDB).filter(StudentDB.id == student_id).first()`. -/
def find_student (s : Store) (student_id : Int) : Option StudentRow :=
  s.students.find? (fun st => (st.id : Int) == student_id)

/-- The subject query of `check_schedule`:
`db.query(SubjectDB).join(TeacherDB).filter(SubjectDB.teacher_id == TeacherDB.id).all()`,
an inner join — each subject row is returned once per teacher row whose id
equals its `teacher_id`, projected to (subject name, teacher_id). -/
def schedule_rows (s : Store) : List (String × Int) :=
  s.subjects.flatMap (fun sub =>
    (s.teachers.filter (fun t => (t.id : Int) == sub.teacher_id)).map
      (fun _ => (sub.name, sub.teacher_id)))

/-- `check_schedule(student_id)` of the student portal, at the level of the
row sequence: `none` when no student row matches (the source returns the
string "Student not found"), otherwise the joined subject list. -/
def check_schedule (s : Store) (student_id : Int) :
    Option (List (String × Int)) :=
  match find_student s student_id with
  | none => none
  | some _ => some (schedule_rows s)

/-- The string actually returned to the user by `check_schedule`. -/
def render_schedule : Option (List (String × Int)) → String
  | none => "Student not found"
  | some rows =>
      String.intercalate "\n"
        (rows.map (fun p => "Subject: " ++ p.1 ++ ", Teacher: " ++
          toString p.2))

/-- `log_attendance(student_id, subject_id)` of the student portal: inserts
one `AttendanceDB` row with `status=True` hard-coded and returns the new
id. -/
def log_attendance (s : Store) (student_id subject_id : Int) (now : Nat) :
    Store × Nat :=
  ({ s with
       attendance :=
         s.attendance ++ [⟨s.nextAttendanceId, student_id, subject_id, now,
                           true⟩],
       nextAttendanceId := s.nextAttendanceId + 1 },
   s.nextAttendanceId)

/-- One user-triggered domain operation (one form submission). -/
inductive Op where
  | createTeacher (name : String)
  | createSubject (name : String) (teacher_id : Int)
  | createStudent (name grade sect : String)
  | createTimetable (class_name : String) (flat : List Int)
  | takeAttendance (student_id subject_id : Int) (status : Bool) (now : Nat)
  | logAttendance (student_id subject_id : Int) (now : Nat)
  | generateReport (subject_id : Int)
  | checkSchedule (student_id : Int)
  deriving DecidableEq, Repr

/-- Result shown by the front end for one operation. -/
inductive Output where
  | ident (i : Nat)
  | ok
  | err
  | report (rows : List (Int × Nat × Bool))
  | schedule (rows : Option (List (String × Int)))
  deriving DecidableEq, Repr

/-- Interpreter: one form submission against the store.  A failing
`create_timetable` (odd flat input) raises before any insert, leaving the
store unchanged. -/
def run : Op → Store → Store × Output
  | .createTeacher n, s =>
      let r := create_teacher s n; (r.1, .ident r.2)
  | .createSubject n tid, s =>
      let r := create_subject s n tid; (r.1, .ident r.2)
  | .createStudent n g sec, s =>
      let r := create_student s n g sec; (r.1, .ident r.2)
  | .createTimetable cn flat, s =>
      match create_timetable s cn flat with
      | some s' => (s', .ok)
      | none => (s, .err)
  | .takeAttendance sid subj st now, s =>
      let r := take_attendance s sid subj st now; (r.1, .ident r.2)
  | .logAttendance sid subj now, s =>
      let r := log_attendance s sid subj now; (r.1, .ident r.2)
  | .generateReport subj, s => (s, .report (generate_report s subj))
  | .checkSchedule sid, s => (s, .schedule (check_schedule s sid))

/-! ## Helper definitions and lemmas -/

/-- Flatten a pair sequence into the alternating flat tuple the Gradio form
passes to `create_timetable` (subject id, teacher id, subject id, ...). -/
def flattenPairs : List (Int × Int) → List Int
  | [] => []
  | (a, b) :: rest => a :: b :: flattenPairs rest

theorem pairUp_flattenPairs :
    ∀ ps : List (Int × Int), pairUp (flattenPairs ps) = some ps
  | [] => rfl
  | (a, b) :: rest => by
      simp [flattenPairs, pairUp, pairUp_flattenPairs rest]

theorem create_timetable_flatten (s : Store) (cn : String)
    (ps : List (Int × Int)) :
    create_timetable s cn (flattenPairs ps) = some
      { s with
          timetables :=
            s.timetables ++ timetableRows s.nextTimetableId cn 1 ps,
          nextTimetableId := s.nextTimetableId + ps.length } := by
  simp [create_timetable, pairUp_flattenPairs]

theorem timetableRows_getElem (cn : String) :
    ∀ (ps : List (Int × Int)) (base period k : Nat),
      (timetableRows base cn period ps)[k]? =
        ps[k]?.map (fun pr =>
          (⟨base + k, cn, period + k, pr.1, pr.2⟩ : TimetableRow))
  | [], _, _, _ => by simp [timetableRows]
  | (a, b) :: rest, base, period, 0 => by simp [timetableRows]
  | (a, b) :: rest, base, period, k + 1 => by
      have h1 : base + (k + 1) = base + 1 + k := by omega
      have h2 : period + (k + 1) = period + 1 + k := by omega
      simp only [timetableRows, List.getElem?_cons_succ, h1, h2]
      exact timetableRows_getElem cn rest (base + 1) (period + 1) k

theorem pairUp_eq_none_of_odd :
    ∀ flat : List Int, flat.length % 2 = 1 → pairUp flat = none
  | [], h => by simp at h
  | [_], _ => rfl
  | a :: b :: rest, h => by
      have h' : rest.length % 2 = 1 := by
        simp [List.length_cons] at h; omega
      simp [pairUp, pairUp_eq_none_of_odd rest h']

/-! ## Claim theorems -/

/-- C1.  For every even-length flat input (i.e. the flattening of a pair
sequence `ps`), `create_timetable` succeeds and appends exactly one timetable
row per pair, in order, whose `period` is the pair's 1-based position, whose
`class_name` is the given class, and whose subject/teacher ids are the pair's
components; in particular `create_timetable "10A" (1,1,2,3)` inserts exactly
the two rows with periods 1, 2 and class name "10A". -/
theorem timetable_pairs_periods (s : Store) (cn : String)
    (ps : List (Int × Int)) :
    create_timetable s cn (flattenPairs ps) = some
      { s with
          timetables :=
            s.timetables ++ timetableRows s.nextTimetableId cn 1 ps,
          nextTimetableId := s.nextTimetableId + ps.length } ∧
    (∀ k : Nat,
      (s.timetables ++ timetableRows s.nextTimetableId cn 1 ps)[
          s.timetables.length + k]? =
        ps[k]?.map (fun pr =>
          (⟨s.nextTimetableId + k, cn, k + 1, pr.1, pr.2⟩ : TimetableRow))) ∧
    create_timetable emptyStore "10A" [1, 1, 2, 3] = some
      { emptyStore with
          timetables := [⟨1, "10A", 1, 1, 1⟩, ⟨2, "10A", 2, 2, 3⟩],
          nextTimetableId := 3 } := by
  refine ⟨create_timetable_flatten s cn ps, ?_, rfl⟩
  intro k
  rw [List.getElem?_append_right (Nat.le_add_right _ _),
    Nat.add_sub_cancel_left, timetableRows_getElem]
  simp [Nat.add_comm]

/-- C3.  `log_attendance` is exactly `take_attendance` with `status = true`:
the stored row always has status `true` and the resulting store is identical
to the one `take_attendance` with the present flag produces. -/
theorem log_attendance_is_take_attendance_present (s : Store)
    (student_id subject_id : Int) (now : Nat) :
    log_attendance s student_id subject_id now =
      take_attendance s student_id subject_id true now ∧
    (log_attendance s student_id subject_id now).1.attendance =
      s.attendance ++
        [⟨s.nextAttendanceId, student_id, subject_id, now, true⟩] :=
  ⟨rfl, rfl⟩

/-- C7.  For a flat input of odd length the pairing comprehension indexes out
of bounds, so `create_timetable` produces no defined result (`none`) and the
interpreter leaves the store unchanged with an error outcome. -/
theorem create_timetable_odd_undefined (s : Store) (cn : String)
    (flat : List Int) (h : flat.length % 2 = 1) :
    create_timetable s cn flat = none ∧
    run (Op.createTimetable cn flat) s = (s, Output.err) := by
  have hp : pairUp flat = none := pairUp_eq_none_of_odd flat h
  refine ⟨?_, ?_⟩ <;> simp [run, create_timetable, hp]

/-- Witness for C7 at the concrete odd-length input `(1, 2, 3)`. -/
theorem create_timetable_odd_undefined_witness :
    ([1, 2, 3] : List Int).length % 2 = 1 ∧
      create_timetable emptyStore "10A" [1, 2, 3] = none :=
  ⟨by decide,
   (create_timetable_odd_undefined emptyStore "10A" [1, 2, 3] (by decide)).1⟩

/-- C8.  `create_subject` inserts its row and returns the fresh id for every
`teacher_id` whatsoever — the outcome never depends on the teachers table, so
a dangling reference is accepted without any failure. -/
theorem create_subject_no_fk_check (s : Store) (name : String)
    (teacher_id : Int) :
    create_subject s name teacher_id =
      ({ s with
           subjects := s.subjects ++ [⟨s.nextSubjectId, name, teacher_id⟩],
           nextSubjectId := s.nextSubjectId + 1 },
       s.nextSubjectId) ∧
    (∀ ts : List TeacherRow,
      create_subject { s with teachers := ts } name teacher_id =
        ({ s with
             teachers := ts,
             subjects := s.subjects ++ [⟨s.nextSubjectId, name, teacher_id⟩],
             nextSubjectId := s.nextSubjectId + 1 },
         s.nextSubjectId)) :=
  ⟨rfl, fun _ => rfl⟩

/-- C9.  `generate_report` is a pure read: the interpreter returns the store
unchanged, and a second run with no intervening writes returns the identical
report. -/
theorem generate_report_pure_idempotent (s : Store) (subject_id : Int) :
    run (Op.generateReport subject_id) s =
      (s, Output.report (generate_report s subject_id)) ∧
    (run (Op.generateReport subject_id)
        (run (Op.generateReport subject_id) s).1).2 =
      (run (Op.generateReport subject_id) s).2 :=
  ⟨rfl, rfl⟩

/-- C4.  When no student row has the requested id, `check_schedule` fails
with the not-found outcome, the user sees the plain string
"Student not found", and the interpreter leaves the store unchanged. -/
theorem check_schedule_notfound (s : Store) (student_id : Int)
    (h : ∀ st ∈ s.students, (st.id : Int) ≠ student_id) :
    check_schedule s student_id = none ∧
    render_schedule (check_schedule s student_id) = "Student not found" ∧
    run (Op.checkSchedule student_id) s = (s, Output.schedule none) := by
  have hf : find_student s student_id = none := by
    rw [find_student, List.find?_eq_none]
    intro st hst
    simpa using h st hst
  refine ⟨?_, ?_, ?_⟩ <;> simp [check_schedule, run, hf, render_schedule]

/-- Witness for C4: student id 999 on the fresh store. -/
theorem check_schedule_notfound_witness :
    check_schedule emptyStore 999 = none ∧
      render_schedule (check_schedule emptyStore 999) =
        "Student not found" := by
  have h := check_schedule_notfound emptyStore 999 (by simp [emptyStore])
  exact ⟨h.1, h.2.1⟩

/-- C5.  `generate_report subject_id` returns exactly the
(student_id, date, status) projections of the attendance rows with that
subject, keeping insertion order; in particular recording attendance for
student 5 in subject 2 appends `(5, now, true)` to the report of subject 2. -/
theorem generate_report_rows_exact (s : Store) (subject_id : Int) :
    (∀ tr ∈ generate_report s subject_id,
       ∃ a ∈ s.attendance, a.subject_id = subject_id ∧
         tr = (a.student_id, a.date, a.status)) ∧
    (∀ a ∈ s.attendance, a.subject_id = subject_id →
       (a.student_id, a.date, a.status) ∈ generate_report s subject_id) ∧
    (∀ now : Nat,
       generate_report (take_attendance s 5 2 true now).1 2 =
         generate_report s 2 ++ [(5, now, true)]) := by
  refine ⟨?_, ?_, ?_⟩
  · intro tr htr
    simp only [generate_report, List.mem_map, List.mem_filter,
      beq_iff_eq] at htr
    obtain ⟨a, ⟨ha, hsub⟩, heq⟩ := htr
    exact ⟨a, ha, hsub, heq.symm⟩
  · intro a ha hsub
    simp only [generate_report, List.mem_map, List.mem_filter, beq_iff_eq]
    exact ⟨a, ⟨ha, hsub⟩, rfl⟩
  · intro now
    simp [generate_report, take_attendance, List.filter_append]

/-- Witness for C5: the report of subject 2 after one `take_attendance`
call on the fresh store contains the recorded triple. -/
theorem generate_report_rows_exact_witness :
    ((5 : Int), (7 : Nat), true) ∈
      generate_report (take_attendance emptyStore 5 2 true 7).1 2 := by
  have h :=
    (generate_report_rows_exact (take_attendance emptyStore 5 2 true 7).1
      2).2.1
  exact h ⟨1, 5, 2, 7, true⟩ (by decide) (by decide)

/-- The teachers table never holds two rows with the same primary key. -/
def teacherIdsNodup (s : Store) : Prop :=
  (s.teachers.map TeacherRow.id).Nodup

theorem filter_map_const_of_nodup (v : String × Int) :
    ∀ ts : List TeacherRow, (ts.map TeacherRow.id).Nodup → ∀ x : Int,
      (ts.filter (fun t => (t.id : Int) == x)).map (fun _ => v) =
        if ts.any (fun t => (t.id : Int) == x) then [v] else []
  | [], _, x => rfl
  | t :: ts, h, x => by
      have hnotin : t.id ∉ ts.map TeacherRow.id := (List.nodup_cons.mp h).1
      have hnd : (ts.map TeacherRow.id).Nodup := (List.nodup_cons.mp h).2
      by_cases hx : (t.id : Int) = x
      · have hfil : ts.filter (fun t' => ((t'.id : Int) == x)) = [] := by
          rw [List.filter_eq_nil_iff]
          intro t' ht'
          simp only [beq_iff_eq]
          intro hc
          apply hnotin
          have hid : t'.id = t.id := by exact_mod_cast hc.trans hx.symm
          rw [← hid]
          exact List.mem_map_of_mem _ ht'
        simp [List.filter_cons, List.any_cons, hx, hfil]
      · simp [List.filter_cons, List.any_cons, hx,
          filter_map_const_of_nodup v ts hnd x]

theorem schedule_rows_eq_filter (s : Store) (h : teacherIdsNodup s) :
    schedule_rows s =
      (s.subjects.filter (fun sub =>
          s.teachers.any (fun t => (t.id : Int) == sub.teacher_id))).map
        (fun sub => (sub.name, sub.teacher_id)) := by
  unfold schedule_rows
  induction s.subjects with
  | nil => rfl
  | cons sub subs ih =>
      rw [List.flatMap_cons, List.filter_cons,
        filter_map_const_of_nodup (sub.name, sub.teacher_id) s.teachers h
          sub.teacher_id, ih]
      by_cases hc :
          s.teachers.any (fun t => (t.id : Int) == sub.teacher_id)
      · rw [if_pos hc, if_pos hc, List.map_cons]
        rfl
      · rw [if_neg hc, if_neg hc]
        rfl

/-- Store reachable by `create_student` and `create_subject` (no foreign-key
validation): one student, no teachers, one subject whose `teacher_id = 5`
references no teacher row. -/
def danglingStore : Store :=
  { teachers := [], subjects := [⟨1, "Math", 5⟩],
    students := [⟨1, "Ann", "10", "A"⟩], attendance := [], timetables := [],
    nextTeacherId := 1, nextSubjectId := 2, nextStudentId := 2,
    nextAttendanceId := 1, nextTimetableId := 1 }

/-- Counterexample to C2 as stated: student 1 exists, yet `check_schedule`
does not return all subjects of the store — the inner join with the teachers
table drops the subject whose `teacher_id` references no teacher. -/
theorem check_schedule_misses_dangling_subject :
    find_student danglingStore 1 ≠ none ∧
    check_schedule danglingStore 1 ≠
      some (danglingStore.subjects.map
        (fun sub => (sub.name, sub.teacher_id))) ∧
    check_schedule danglingStore 1 = some [] :=
  ⟨by decide, by decide, by decide⟩

/-- C2 (amended).  For every existing student, `check_schedule` returns the
(name, teacher_id) projection of exactly those subjects whose `teacher_id`
matches an existing teacher (the inner join), in store order — the result is
independent of the requesting student's grade and section, hence identical
for every existing student. -/
theorem check_schedule_unscoped_join (s : Store) (sid₁ sid₂ : Int)
    (hnd : teacherIdsNodup s)
    (h₁ : find_student s sid₁ ≠ none) (h₂ : find_student s sid₂ ≠ none) :
    check_schedule s sid₁ = check_schedule s sid₂ ∧
    check_schedule s sid₁ =
      some ((s.subjects.filter (fun sub =>
          s.teachers.any (fun t => (t.id : Int) == sub.teacher_id))).map
        (fun sub => (sub.name, sub.teacher_id))) := by
  obtain ⟨st₁, hst₁⟩ := Option.ne_none_iff_exists'.mp h₁
  obtain ⟨st₂, hst₂⟩ := Option.ne_none_iff_exists'.mp h₂
  refine ⟨?_, ?_⟩
  · simp [check_schedule, hst₁, hst₂]
  · simp [check_schedule, hst₁, schedule_rows_eq_filter s hnd]

/-- Witness for C2 (amended): two students of different grades and sections
get the identical schedule. -/
theorem check_schedule_unscoped_join_witness :
    check_schedule
        { teachers := [⟨1, "T", 9⟩], subjects := [⟨1, "Math", 1⟩],
          students := [⟨1, "Ann", "10", "A"⟩, ⟨2, "Bob", "11", "B"⟩],
          attendance := [], timetables := [], nextTeacherId := 2,
          nextSubjectId := 2, nextStudentId := 3, nextAttendanceId := 1,
          nextTimetableId := 1 } 1 =
      check_schedule
        { teachers := [⟨1, "T", 9⟩], subjects := [⟨1, "Math", 1⟩],
          students := [⟨1, "Ann", "10", "A"⟩, ⟨2, "Bob", "11", "B"⟩],
          attendance := [], timetables := [], nextTeacherId := 2,
          nextSubjectId := 2, nextStudentId := 3, nextAttendanceId := 1,
          nextTimetableId := 1 } 2 :=
  (check_schedule_unscoped_join _ 1 2 (by unfold teacherIdsNodup; decide)
    (by decide) (by decide)).1

def teacherIds (s : Store) : List Nat := s.teachers.map TeacherRow.id

def subjectIds (s : Store) : List Nat := s.subjects.map SubjectRow.id

def studentIds (s : Store) : List Nat := s.students.map StudentRow.id

def attendanceIds (s : Store) : List Nat := s.attendance.map AttendanceRow.id

def timetableIds (s : Store) : List Nat := s.timetables.map TimetableRow.id

/-- Representation invariant of the auto-increment primary keys: every id
already present in a table is smaller than that table's next id.  It holds
for the fresh store and is preserved by every create operation. -/
def WellFormed (s : Store) : Prop :=
  (∀ i ∈ teacherIds s, i < s.nextTeacherId) ∧
  (∀ i ∈ subjectIds s, i < s.nextSubjectId) ∧
  (∀ i ∈ studentIds s, i < s.nextStudentId) ∧
  (∀ i ∈ attendanceIds s, i < s.nextAttendanceId) ∧
  (∀ i ∈ timetableIds s, i < s.nextTimetableId)

theorem wellFormed_emptyStore : WellFormed emptyStore := by
  refine ⟨?_, ?_, ?_, ?_, ?_⟩ <;>
    simp [teacherIds, subjectIds, studentIds, attendanceIds, timetableIds,
      emptyStore]

theorem timetableRows_id_bounds (cn : String) :
    ∀ (ps : List (Int × Int)) (base period : Nat),
      ∀ r ∈ timetableRows base cn period ps,
        base ≤ r.id ∧ r.id < base + ps.length
  | [], _, _ => by simp [timetableRows]
  | (a, b) :: rest, base, period => by
      intro r hr
      simp only [timetableRows, List.mem_cons] at hr
      rcases hr with hr | hr
      · subst hr
        simp
      · have h := timetableRows_id_bounds cn rest (base + 1) (period + 1) r hr
        simp only [List.length_cons]
        omega

theorem wellFormed_create_teacher (s : Store) (h : WellFormed s)
    (nm : String) : WellFormed (create_teacher s nm).1 := by
  obtain ⟨hT, hSub, hSt, hA, hTT⟩ := h
  refine ⟨?_, hSub, hSt, hA, hTT⟩
  intro i hi
  simp only [teacherIds, create_teacher, List.map_append, List.mem_append,
    List.map_cons, List.map_nil, List.mem_cons, List.not_mem_nil,
    or_false] at hi
  rcases hi with hi | hi
  · exact Nat.lt_succ_of_lt (hT i hi)
  · show i < s.nextTeacherId + 1
    omega

theorem wellFormed_create_subject (s : Store) (h : WellFormed s)
    (nm : String) (tid : Int) : WellFormed (create_subject s nm tid).1 := by
  obtain ⟨hT, hSub, hSt, hA, hTT⟩ := h
  refine ⟨hT, ?_, hSt, hA, hTT⟩
  intro i hi
  simp only [subjectIds, create_subject, List.map_append, List.mem_append,
    List.map_cons, List.map_nil, List.mem_cons, List.not_mem_nil,
    or_false] at hi
  rcases hi with hi | hi
  · exact Nat.lt_succ_of_lt (hSub i hi)
  · show i < s.nextSubjectId + 1
    omega

theorem wellFormed_create_student (s : Store) (h : WellFormed s)
    (nm g sec : String) : WellFormed (create_student s nm g sec).1 := by
  obtain ⟨hT, hSub, hSt, hA, hTT⟩ := h
  refine ⟨hT, hSub, ?_, hA, hTT⟩
  intro i hi
  simp only [studentIds, create_student, List.map_append, List.mem_append,
    List.map_cons, List.map_nil, List.mem_cons, List.not_mem_nil,
    or_false] at hi
  rcases hi with hi | hi
  · exact Nat.lt_succ_of_lt (hSt i hi)
  · show i < s.nextStudentId + 1
    omega

theorem wellFormed_take_attendance (s : Store) (h : WellFormed s)
    (sid subj : Int) (st : Bool) (now : Nat) :
    WellFormed (take_attendance s sid subj st now).1 := by
  obtain ⟨hT, hSub, hSt, hA, hTT⟩ := h
  refine ⟨hT, hSub, hSt, ?_, hTT⟩
  intro i hi
  simp only [attendanceIds, take_attendance, List.map_append,
    List.mem_append, List.map_cons, List.map_nil, List.mem_cons,
    List.not_mem_nil, or_false] at hi
  rcases hi with hi | hi
  · exact Nat.lt_succ_of_lt (hA i hi)
  · show i < s.nextAttendanceId + 1
    omega

theorem wellFormed_create_timetable (s : Store) (h : WellFormed s)
    (cn : String) (ps : List (Int × Int)) :
    WellFormed
      { s with
          timetables :=
            s.timetables ++ timetableRows s.nextTimetableId cn 1 ps,
          nextTimetableId := s.nextTimetableId + ps.length } := by
  obtain ⟨hT, hSub, hSt, hA, hTT⟩ := h
  refine ⟨hT, hSub, hSt, hA, ?_⟩
  intro i hi
  simp only [timetableIds, List.map_append, List.mem_append] at hi
  rcases hi with hi | hi
  · exact lt_of_lt_of_le (hTT i hi) (Nat.le_add_right _ _)
  · obtain ⟨r, hr, hri⟩ := List.mem_map.mp hi
    have hb := (timetableRows_id_bounds cn ps s.nextTimetableId 1 r hr).2
    show i < s.nextTimetableId + ps.length
    omega

/-- C6.  Under the counter invariant, every create operation returns an id
not previously used for its entity type and preserves the invariant, and a
second call with identical arguments inserts a second row with a distinct
id — no deduplication anywhere, duplicate attendance rows included. -/
theorem create_ids_fresh_no_dedup (s : Store) (h : WellFormed s) :
    (∀ nm,
      (create_teacher s nm).2 ∉ teacherIds s ∧
      WellFormed (create_teacher s nm).1 ∧
      (create_teacher (create_teacher s nm).1 nm).2 ≠
        (create_teacher s nm).2 ∧
      (create_teacher (create_teacher s nm).1 nm).1.teachers =
        s.teachers ++
          [⟨s.nextTeacherId, nm, 9⟩, ⟨s.nextTeacherId + 1, nm, 9⟩]) ∧
    (∀ nm tid,
      (create_subject s nm tid).2 ∉ subjectIds s ∧
      WellFormed (create_subject s nm tid).1 ∧
      (create_subject (create_subject s nm tid).1 nm tid).2 ≠
        (create_subject s nm tid).2 ∧
      (create_subject (create_subject s nm tid).1 nm tid).1.subjects =
        s.subjects ++
          [⟨s.nextSubjectId, nm, tid⟩, ⟨s.nextSubjectId + 1, nm, tid⟩]) ∧
    (∀ nm g sec,
      (create_student s nm g sec).2 ∉ studentIds s ∧
      WellFormed (create_student s nm g sec).1 ∧
      (create_student (create_student s nm g sec).1 nm g sec).2 ≠
        (create_student s nm g sec).2 ∧
      (create_student (create_student s nm g sec).1 nm g sec).1.students =
        s.students ++
          [⟨s.nextStudentId, nm, g, sec⟩,
           ⟨s.nextStudentId + 1, nm, g, sec⟩]) ∧
    (∀ (sid subj : Int) (st : Bool) (now : Nat),
      (take_attendance s sid subj st now).2 ∉ attendanceIds s ∧
      WellFormed (take_attendance s sid subj st now).1 ∧
      (take_attendance (take_attendance s sid subj st now).1 sid subj st
          now).2 ≠ (take_attendance s sid subj st now).2 ∧
      (take_attendance (take_attendance s sid subj st now).1 sid subj st
          now).1.attendance =
        s.attendance ++
          [⟨s.nextAttendanceId, sid, subj, now, st⟩,
           ⟨s.nextAttendanceId + 1, sid, subj, now, st⟩]) ∧
    (∀ (cn : String) (ps : List (Int × Int)),
      (∀ r ∈ timetableRows s.nextTimetableId cn 1 ps,
        r.id ∉ timetableIds s) ∧
      ∃ s₁, create_timetable s cn (flattenPairs ps) = some s₁ ∧
        WellFormed s₁ ∧
        ∃ s₂, create_timetable s₁ cn (flattenPairs ps) = some s₂ ∧
          s₂.timetables =
            s.timetables ++ timetableRows s.nextTimetableId cn 1 ps ++
              timetableRows (s.nextTimetableId + ps.length) cn 1 ps) := by
  obtain ⟨hT, hSub, hSt, hA, hTT⟩ := h
  refine ⟨fun nm => ⟨?_, ?_, ?_, ?_⟩, fun nm tid => ⟨?_, ?_, ?_, ?_⟩,
    fun nm g sec => ⟨?_, ?_, ?_, ?_⟩,
    fun sid subj st now => ⟨?_, ?_, ?_, ?_⟩, fun cn ps => ⟨?_, ?_⟩⟩
  · exact fun hmem => absurd (hT _ hmem) (lt_irrefl _)
  · exact wellFormed_create_teacher s ⟨hT, hSub, hSt, hA, hTT⟩ nm
  · exact Nat.succ_ne_self s.nextTeacherId
  · simp [create_teacher]
  · exact fun hmem => absurd (hSub _ hmem) (lt_irrefl _)
  · exact wellFormed_create_subject s ⟨hT, hSub, hSt, hA, hTT⟩ nm tid
  · exact Nat.succ_ne_self s.nextSubjectId
  · simp [create_subject]
  · exact fun hmem => absurd (hSt _ hmem) (lt_irrefl _)
  · exact wellFormed_create_student s ⟨hT, hSub, hSt, hA, hTT⟩ nm g sec
  · exact Nat.succ_ne_self s.nextStudentId
  · simp [create_student]
  · exact fun hmem => absurd (hA _ hmem) (lt_irrefl _)
  · exact wellFormed_take_attendance s ⟨hT, hSub, hSt, hA, hTT⟩ sid subj st
      now
  · exact Nat.succ_ne_self s.nextAttendanceId
  · simp [take_attendance]
  · intro r hr hmem
    have hb := (timetableRows_id_bounds cn ps s.nextTimetableId 1 r hr).1
    have := hTT _ hmem
    omega
  · refine ⟨_, create_timetable_flatten s cn ps, ?_, _,
      create_timetable_flatten _ cn ps, rfl⟩
    exact wellFormed_create_timetable s ⟨hT, hSub, hSt, hA, hTT⟩ cn ps

/-- Witness for C6 on the fresh store: the first teacher id is unused and a
repeated identical create yields a different id. -/
theorem create_ids_fresh_no_dedup_witness :
    (create_teacher emptyStore "T").2 ∉ teacherIds emptyStore ∧
      (create_teacher (create_teacher emptyStore "T").1 "T").2 ≠
        (create_teacher emptyStore "T").2 := by
  have h := create_ids_fresh_no_dedup emptyStore wellFormed_emptyStore
  exact ⟨(h.1 "T").1, (h.1 "T").2.2.1⟩

/-- C10.  No operation updates or deletes existing rows: after any single
operation every table equals its old value with some (possibly empty) list of
new rows appended, and the two read operations leave the store entirely
unchanged. -/
theorem ops_never_update_or_delete (op : Op) (s : Store) :
    ((∃ d, (run op s).1.teachers = s.teachers ++ d) ∧
     (∃ d, (run op s).1.subjects = s.subjects ++ d) ∧
     (∃ d, (run op s).1.students = s.students ++ d) ∧
     (∃ d, (run op s).1.attendance = s.attendance ++ d) ∧
     (∃ d, (run op s).1.timetables = s.timetables ++ d)) ∧
    (∀ subj : Int, (run (Op.generateReport subj) s).1 = s) ∧
    (∀ sid : Int, (run (Op.checkSchedule sid) s).1 = s) := by
  refine ⟨?_, fun _ => rfl, fun _ => rfl⟩
  cases op with
  | createTeacher n =>
      exact ⟨⟨_, rfl⟩, ⟨[], (List.append_nil _).symm⟩,
        ⟨[], (List.append_nil _).symm⟩, ⟨[], (List.append_nil _).symm⟩,
        ⟨[], (List.append_nil _).symm⟩⟩
  | createSubject n tid =>
      exact ⟨⟨[], (List.append_nil _).symm⟩, ⟨_, rfl⟩,
        ⟨[], (List.append_nil _).symm⟩, ⟨[], (List.append_nil _).symm⟩,
        ⟨[], (List.append_nil _).symm⟩⟩
  | createStudent n g sec =>
      exact ⟨⟨[], (List.append_nil _).symm⟩, ⟨[], (List.append_nil _).symm⟩,
        ⟨_, rfl⟩, ⟨[], (List.append_nil _).symm⟩,
        ⟨[], (List.append_nil _).symm⟩⟩
  | createTimetable cn flat =>
      rcases hpu : pairUp flat with _ | pairs
      · have hct : create_timetable s cn flat = none := by
          simp [create_timetable, hpu]
        refine ⟨⟨[], ?_⟩, ⟨[], ?_⟩, ⟨[], ?_⟩, ⟨[], ?_⟩, ⟨[], ?_⟩⟩ <;>
          simp [run, hct]
      · have hct : create_timetable s cn flat = some
            { s with
                timetables := s.timetables ++
                  timetableRows s.nextTimetableId cn 1 pairs,
                nextTimetableId := s.nextTimetableId + pairs.length } := by
          simp [create_timetable, hpu]
        refine ⟨⟨[], ?_⟩, ⟨[], ?_⟩, ⟨[], ?_⟩, ⟨[], ?_⟩,
          ⟨timetableRows s.nextTimetableId cn 1 pairs, ?_⟩⟩ <;>
          simp [run, hct]
  | takeAttendance sid subj st now =>
      exact ⟨⟨[], (List.append_nil _).symm⟩, ⟨[], (List.append_nil _).symm⟩,
        ⟨[], (List.append_nil _).symm⟩, ⟨_, rfl⟩,
        ⟨[], (List.append_nil _).symm⟩⟩
  | logAttendance sid subj now =>
      exact ⟨⟨[], (List.append_nil _).symm⟩, ⟨[], (List.append_nil _).symm⟩,
        ⟨[], (List.append_nil _).symm⟩, ⟨_, rfl⟩,
        ⟨[], (List.append_nil _).symm⟩⟩
  | generateReport subj =>
      exact ⟨⟨[], (List.append_nil _).symm⟩, ⟨[], (List.append_nil _).symm⟩,
        ⟨[], (List.append_nil _).symm⟩, ⟨[], (List.append_nil _).symm⟩,
        ⟨[], (List.append_nil _).symm⟩⟩
  | checkSchedule sid =>
      exact ⟨⟨[], (List.append_nil _).symm⟩, ⟨[], (List.append_nil _).symm⟩,
        ⟨[], (List.append_nil _).symm⟩, ⟨[], (List.append_nil _).symm⟩,
        ⟨[], (List.append_nil _).symm⟩⟩

end AttendanceSystem
